import Mathlib

/-!
# Outfit registry (`src/creatures/appearance/outfit/outfit.cpp`)

A shallow embedding of `Outfits::loadFromXml`, `Outfits::getOutfitByLookType` and
`Outfits::getOpositeSexOutfitByLookType`, followed by theorems about them.

Conventions of the embedding:

* `std::vector<Outfit>` is a `List Outfit`; a `const Outfit*` result is an
  `Option Outfit` (`none` is `nullptr`).
* `uint8_t` / `uint16_t` values are natural numbers, reduced `% 256` / `% 65536`
  at every `static_cast` and at the increment of a 16-bit counter.
* The XML library, `isNumber`, the configuration flag and the registered-looktype
  set are collaborators outside this file's source; they are fields of `Env`.
* The `for` loop of `getOpositeSexOutfitByLookType` has a 16-bit counter and may
  cycle; it is embedded with fuel, `none` meaning that the fuel ran out.
-/

namespace OutfitRegistry

/-! ## Data model -/

/-- Modelled from the spec: the `PlayerSex_t` enumeration of the missing header
(`female`, `male`, plus a bounding "last" marker). -/
inductive PlayerSex_t where
  | PLAYERSEX_FEMALE
  | PLAYERSEX_MALE
  deriving DecidableEq, Repr

open PlayerSex_t

/-- Modelled from the spec: the numeric value of a `PlayerSex_t` enumerator of the
missing header; `female` is the lowest slot and `male` the next one. -/
def PlayerSex_t.toNat : PlayerSex_t → Nat
  | PLAYERSEX_FEMALE => 0
  | PLAYERSEX_MALE => 1

/-- Modelled from the spec: the bounding "last" marker of the missing header,
the highest valid gender category. -/
def PLAYERSEX_LAST : PlayerSex_t := PLAYERSEX_MALE

/-- Modelled from the spec: the `Outfit` record of the missing header (name,
lookType, premium, unlocked, from), as built by `emplace_back` in `loadFromXml`. -/
structure Outfit where
  name : String
  lookType : Nat
  premium : Bool
  unlocked : Bool
  «from» : String
  deriving DecidableEq, Repr

/-- Modelled from the spec: the member `outfits` of the registry `Outfits`,
declared in the missing header: an array indexed by gender category, each slot
an ordered sequence of records. -/
structure Outfits where
  female : List Outfit
  male : List Outfit
  deriving DecidableEq, Repr

/-- The slot `outfits[sex]`. -/
def Outfits.outfits (r : Outfits) : PlayerSex_t → List Outfit
  | PLAYERSEX_FEMALE => r.female
  | PLAYERSEX_MALE => r.male

/-- The statement `outfits[type].emplace_back(o)` for a `uint8_t` index `type`.
An index above `PLAYERSEX_LAST` is outside the array; the loader never reaches
it (it is guarded by `type > PLAYERSEX_LAST`), and the registry is left as is. -/
def Outfits.emplace_back (r : Outfits) (type : Nat) (o : Outfit) : Outfits :=
  if type = PLAYERSEX_FEMALE.toNat then { r with female := r.female ++ [o] }
  else if type = PLAYERSEX_MALE.toNat then { r with male := r.male ++ [o] }
  else r

/-- The loop `for sex in FEMALE..LAST: outfits[sex].shrink_to_fit()`; it changes
capacities only, and the contents are what this embedding keeps. -/
def Outfits.shrink_to_fit (r : Outfits) : Outfits := r

/-- The registry before any load. -/
def Outfits.empty : Outfits := ⟨[], []⟩

/-! ## Lookups -/

/-- The range-`for` of `Outfits::getOutfitByLookType` over one vector. -/
def getOutfitByLookType.scan (lookType : Nat) : List Outfit → Option Outfit
  | [] => none
  | outfit :: rest =>
    if outfit.lookType = lookType then some outfit
    else getOutfitByLookType.scan lookType rest

/-- The function `Outfits::getOutfitByLookType(sex, lookType)`. -/
def getOutfitByLookType (r : Outfits) (sex : PlayerSex_t) (lookType : Nat) : Option Outfit :=
  getOutfitByLookType.scan lookType (r.outfits sex)

/-- The loop `for (uint16_t i = 0; i < outfits[sex].size(); i++)` of
`Outfits::getOpositeSexOutfitByLookType`, started at counter `i`, over
`own = outfits[sex]` and `opp = outfits[searchSex]`.  The counter is 16 bits
wide, so `i++` is `(i + 1) % 65536`.  The outer `Option` is the fuel: `none`
means the loop was still running when the fuel ran out. -/
def getOpositeSexOutfitByLookType.loop (own opp : List Outfit) (lookType : Nat) :
    Nat → Nat → Option (Option Outfit)
  | 0, _ => none
  | fuel + 1, i =>
    if h : i < own.length then
      if (own.get ⟨i, h⟩).lookType = lookType then
        if h2 : opp.length > i then some (some (opp.get ⟨i, h2⟩))
        else some none
      else getOpositeSexOutfitByLookType.loop own opp lookType fuel ((i + 1) % 65536)
    else some none

/-- The function `Outfits::getOpositeSexOutfitByLookType(sex, lookType)`, run with
`fuel` loop iterations available. -/
def getOpositeSexOutfitByLookType (fuel : Nat) (r : Outfits) (sex : PlayerSex_t)
    (lookType : Nat) : Option (Option Outfit) :=
  let searchSex := if sex = PLAYERSEX_MALE then PLAYERSEX_FEMALE else PLAYERSEX_MALE
  getOpositeSexOutfitByLookType.loop (r.outfits sex) (r.outfits searchSex) lookType fuel 0

/-! ## The definition file and the collaborators of the loader -/

/-- An attribute handle `pugi::xml_attribute`: `none` is the empty handle (the
node has no attribute of that name), `some v` an attribute with value `v`. -/
abbrev xml_attribute := Option String

/-- A child node of the `outfits` element: its attributes, in document order. -/
structure xml_node where
  attrs : List (String × String)
  deriving DecidableEq, Repr

/-- The call `node.attribute(name)`: the first attribute of that name, or the
empty handle. -/
def xml_node.attribute (node : xml_node) (name : String) : xml_attribute :=
  node.attrs.lookup name

/-- What `loadFromXml` consumes from outside its source file: the value readers of
the XML library, `isNumber` of `utils/tools.h`, the configuration flag
`WARN_UNSAFE_SCRIPTS` and the registered-looktype set of the game. -/
structure Env where
  /-- The unsigned-integer reading of an attribute value. -/
  toUint : String → Nat
  /-- The boolean reading of an attribute value. -/
  toBool : String → Bool
  /-- The helper `isNumber(str)`. -/
  isNumber : String → Bool
  /-- The value of `g_configManager().getBoolean(WARN_UNSAFE_SCRIPTS)`. -/
  WARN_UNSAFE_SCRIPTS : Bool
  /-- The membership test `g_game().isLookTypeRegistered(lookType)`. -/
  isLookTypeRegistered : Nat → Bool

/-- The call `attr.as_uint(def)`: the default on the empty handle. -/
def xml_attribute.as_uint (env : Env) (attr : xml_attribute) (dflt : Nat) : Nat :=
  match attr with
  | none => dflt
  | some v => env.toUint v

/-- The call `attr.as_bool(def)`: the default on the empty handle. -/
def xml_attribute.as_bool (env : Env) (attr : xml_attribute) (dflt : Bool) : Bool :=
  match attr with
  | none => dflt
  | some v => env.toBool v

/-- The call `attr.as_string()`: the empty string on the empty handle. -/
def xml_attribute.as_string (attr : xml_attribute) : String :=
  match attr with
  | none => ""
  | some v => v

/-- The call `attr.empty()`. -/
def xml_attribute.empty (attr : xml_attribute) : Bool := attr.isNone

/-! ## The loader -/

/-- How one iteration of the `for` loop of `loadFromXml` ends. -/
inductive Step where
  /-- The iteration ended in `continue`: nothing appended. -/
  | skip
  /-- The iteration ended in `return false`. -/
  | abort
  /-- The iteration reached `outfits[type].emplace_back(o)`. -/
  | emplace (type : Nat) (o : Outfit)
  deriving DecidableEq, Repr

/-- The body of the `for` loop of `Outfits::loadFromXml` on one node, statement by
statement. -/
def loadFromXml.body (env : Env) (outfitNode : xml_node) : Step :=
  let attr := outfitNode.attribute "enabled"
  if attr.isSome && !(xml_attribute.as_bool env attr false) then Step.skip
  else
    let attr := outfitNode.attribute "type"
    if attr.isNone then Step.skip
    else
      let type := (xml_attribute.as_uint env (outfitNode.attribute "type") 0) % 256
      if type > PLAYERSEX_LAST.toNat then Step.skip
      else
        let lookTypeAttribute := outfitNode.attribute "looktype"
        let lookType := (xml_attribute.as_uint env lookTypeAttribute 0) % 65536
        let outfitName := xml_attribute.as_string (outfitNode.attribute "name")
        let rejected : Bool :=
          if !(xml_attribute.empty lookTypeAttribute) then
            let lookTypeString := xml_attribute.as_string lookTypeAttribute
            if lookTypeString.isEmpty || lookType == 0 then true
            else if !(env.isNumber lookTypeString) then true
            else
              let nameAttribute := outfitNode.attribute "name"
              if nameAttribute.isNone || outfitName.isEmpty then true
              else false
          else false
        if rejected then Step.skip
        else
          let lookType2 := (xml_attribute.as_uint env lookTypeAttribute 0) % 65536
          if env.WARN_UNSAFE_SCRIPTS && lookType2 != 0
              && !(env.isLookTypeRegistered lookType2) then Step.abort
          else
            Step.emplace type
              { name := outfitName
                lookType := lookType
                premium := xml_attribute.as_bool env (outfitNode.attribute "premium") false
                unlocked := xml_attribute.as_bool env (outfitNode.attribute "unlocked") true
                «from» := xml_attribute.as_string (outfitNode.attribute "from") }

/-- The `for` loop of `Outfits::loadFromXml` over the remaining nodes, followed by
the `shrink_to_fit` pass and `return true`; an aborting node returns `false`
with the registry as it stands. -/
def loadFromXml.loop (env : Env) : List xml_node → Outfits → Bool × Outfits
  | [], r => (true, r.shrink_to_fit)
  | outfitNode :: rest, r =>
    match loadFromXml.body env outfitNode with
    | Step.skip => loadFromXml.loop env rest r
    | Step.abort => (false, r)
    | Step.emplace type o => loadFromXml.loop env rest (r.emplace_back type o)

/-- The function `Outfits::loadFromXml()`.  The argument `doc` is the outcome of
`doc.load_file`: `none` when the file could not be opened or parsed, otherwise
the children of the `outfits` element.  The result pairs the returned flag with
the registry after the call. -/
def loadFromXml (env : Env) (doc : Option (List xml_node)) (r : Outfits) : Bool × Outfits :=
  match doc with
  | none => (false, r)
  | some children => loadFromXml.loop env children r

/-! ## A concrete environment, for evaluating the loader on example files -/

/-- The value of the leading decimal digits of a character list, after `acc`. -/
def leadingDigits : List Char → Nat → Nat
  | [], acc => acc
  | c :: cs, acc =>
    if 48 ≤ c.toNat ∧ c.toNat ≤ 57 then leadingDigits cs (acc * 10 + (c.toNat - 48))
    else acc

/-- An unsigned reader that agrees with the XML library on plain decimal strings:
the leading digits, saturated at the largest 32-bit value. -/
def decimalUint (s : String) : Nat := min (leadingDigits s.data 0) 4294967295

/-- A boolean reader in the manner of the XML library: true when the value starts
with one of `1`, `t`, `T`, `y`, `Y`. -/
def firstCharBool (s : String) : Bool :=
  match s.data with
  | [] => false
  | c :: _ => c.toNat = 49 || c.toNat = 116 || c.toNat = 84 || c.toNat = 121 || c.toNat = 89

/-- A digit test: every character is a decimal digit. -/
def allDigits (s : String) : Bool :=
  s.data.all (fun c => decide (48 ≤ c.toNat ∧ c.toNat ≤ 57))

/-- The example environment: the readers above, with the given flag and the given
list of registered looktypes. -/
def exampleEnv (flag : Bool) (registered : List Nat) : Env :=
  { toUint := decimalUint
    toBool := firstCharBool
    isNumber := allDigits
    WARN_UNSAFE_SCRIPTS := flag
    isLookTypeRegistered := fun lookType => registered.contains lookType }

/-- The opposite gender in the words of the specification: female maps to male and
male maps to female. -/
def oppositeSex : PlayerSex_t → PlayerSex_t
  | PLAYERSEX_FEMALE => PLAYERSEX_MALE
  | PLAYERSEX_MALE => PLAYERSEX_FEMALE

/-! ## The per-entry checks as the loader applies them (8-bit type, 16-bit looktype) -/

/-- The entry is not disabled: it has no `enabled` attribute, or one that reads as
true. -/
def entryEnabled (env : Env) (n : xml_node) : Bool :=
  match n.attribute "enabled" with
  | none => true
  | some v => env.toBool v

/-- The gender type the loader reads from the entry: the unsigned value of the
`type` attribute, kept in 8 bits. -/
def entryType (env : Env) (n : xml_node) : Nat :=
  match n.attribute "type" with
  | none => 0
  | some v => env.toUint v % 256

/-- The entry has a `type` attribute and the type read from it is a gender
category. -/
def typeValid (env : Env) (n : xml_node) : Bool :=
  (n.attribute "type").isSome && decide (entryType env n ≤ PLAYERSEX_LAST.toNat)

/-- The looktype the loader reads from the entry: the unsigned value of the
`looktype` attribute, kept in 16 bits; 0 when the attribute is absent. -/
def entryLookType (env : Env) (n : xml_node) : Nat :=
  match n.attribute "looktype" with
  | none => 0
  | some v => env.toUint v % 65536

/-- The looktype/name checks: when a `looktype` attribute is present it is
non-empty, numeric and read as non-zero, and the `name` attribute is present and
non-empty; an entry without `looktype` passes. -/
def lookNameChecksPass (env : Env) (n : xml_node) : Bool :=
  match n.attribute "looktype" with
  | none => true
  | some v =>
    decide (v ≠ "") && decide (entryLookType env n ≠ 0) && env.isNumber v &&
      (match n.attribute "name" with
       | none => false
       | some nm => decide (nm ≠ ""))

/-- The entry passes the per-entry checks: enabled, type present and in range,
looktype/name checks. -/
def passesChecks (env : Env) (n : xml_node) : Bool :=
  entryEnabled env n && typeValid env n && lookNameChecksPass env n

/-- The entry carries a non-zero looktype that is not in the registered set. -/
def unregisteredLookType (env : Env) (n : xml_node) : Bool :=
  decide (entryLookType env n ≠ 0) && !(env.isLookTypeRegistered (entryLookType env n))

/-- The record built from an entry: its name, the looktype read from it, the
`premium` flag (default false), the `unlocked` flag (default true) and the
`from` tag (default empty). -/
def buildOutfit (env : Env) (n : xml_node) : Outfit :=
  { name := xml_attribute.as_string (n.attribute "name")
    lookType := entryLookType env n
    premium := xml_attribute.as_bool env (n.attribute "premium") false
    unlocked := xml_attribute.as_bool env (n.attribute "unlocked") true
    «from» := xml_attribute.as_string (n.attribute "from") }

/-- The records built from the entries of `l` that pass the per-entry checks and
have type `g`, in the order of `l`. -/
def recordsFor (env : Env) (g : PlayerSex_t) (l : List xml_node) : List Outfit :=
  (l.filter (fun n => passesChecks env n && decide (entryType env n = g.toNat))).map
    (buildOutfit env)

/-- An example registry with three female and two male records. -/
def exampleRegistry : Outfits :=
  { female := [⟨"Citizen", 136, false, true, ""⟩, ⟨"Hunter", 137, false, true, ""⟩,
               ⟨"Mage", 138, false, true, ""⟩]
    male := [⟨"Citizen", 128, false, true, ""⟩, ⟨"Hunter", 129, false, true, ""⟩] }

/-- An example entry: a male outfit with looktype 128. -/
def citizenNode : xml_node :=
  ⟨[("type", "1"), ("looktype", "128"), ("name", "Citizen"), ("premium", "0")]⟩

/-- An example entry: a male outfit with looktype 999. -/
def hunterNode : xml_node :=
  ⟨[("type", "1"), ("looktype", "999"), ("name", "Hunter")]⟩

/-- An example entry: a female outfit with looktype 136. -/
def queenNode : xml_node :=
  ⟨[("type", "0"), ("looktype", "136"), ("name", "Queen"), ("unlocked", "false")]⟩

/-- An example entry with `looktype="0"`. -/
def zeroLookNode : xml_node :=
  ⟨[("type", "1"), ("looktype", "0"), ("name", "Nobody")]⟩

/-- An example entry with an unregistered looktype and no name. -/
def namelessNode : xml_node :=
  ⟨[("type", "1"), ("looktype", "999")]⟩

/-- An example entry with neither `looktype` nor `name`. -/
def bareNode : xml_node := ⟨[("type", "0"), ("enabled", "yes")]⟩

/-- An example entry whose looktype, 65537, does not fit in 16 bits. -/
def wideLookNode : xml_node :=
  ⟨[("type", "1"), ("looktype", "65537"), ("name", "Citizen")]⟩

/-- An example entry whose looktype, 65536, is a non-zero number that is 0 in 16
bits. -/
def wrappedLookNode : xml_node :=
  ⟨[("type", "1"), ("looktype", "65536"), ("name", "Citizen")]⟩

/-- An example entry whose `type`, 256, is outside the gender range. -/
def type256Node : xml_node :=
  ⟨[("type", "256"), ("looktype", "128"), ("name", "Citizen")]⟩

/-- An example entry with `enabled="false"` and an unregistered looktype. -/
def disabledNode : xml_node :=
  ⟨[("enabled", "false"), ("type", "1"), ("looktype", "999"), ("name", "Ghost")]⟩

/-- An example entry that sets every optional attribute. -/
def nobleNode : xml_node :=
  ⟨[("type", "0"), ("looktype", "140"), ("name", "Noble"), ("premium", "yes"),
    ("unlocked", "0"), ("from", "store")]⟩

/-- An example registry whose female collection holds 65536 records, all of
looktype 136, and whose male collection is empty. -/
def crowdedRegistry : Outfits :=
  { female := List.replicate 65536 ⟨"Citizen", 136, false, true, ""⟩
    male := [] }

/-! ## The per-entry checks on the attribute values as written in the file -/

/-- The value of the `type` attribute as an unsigned integer; 0 when absent. -/
def typeValue (env : Env) (n : xml_node) : Nat :=
  match n.attribute "type" with
  | none => 0
  | some v => env.toUint v

/-- The entry has a `type` attribute whose value, as an unsigned integer, is a
gender category. -/
def typeInRange (env : Env) (n : xml_node) : Bool :=
  match n.attribute "type" with
  | none => false
  | some v => decide (env.toUint v ≤ PLAYERSEX_LAST.toNat)

/-- The value of the `looktype` attribute as an unsigned integer; 0 when absent. -/
def lookTypeValue (env : Env) (n : xml_node) : Nat :=
  match n.attribute "looktype" with
  | none => 0
  | some v => env.toUint v

/-- The looktype/name checks on the values as written: when a `looktype` attribute
is present it is non-empty, numeric and of a non-zero value, and the `name`
attribute is present and non-empty; an entry without `looktype` passes. -/
def lookNameChecksHold (env : Env) (n : xml_node) : Bool :=
  match n.attribute "looktype" with
  | none => true
  | some v =>
    decide (v ≠ "") && env.isNumber v && decide (env.toUint v ≠ 0) &&
      (match n.attribute "name" with
       | none => false
       | some nm => decide (nm ≠ ""))

/-- The entry passes the per-entry checks on the values as written: enabled, type
present and in range, looktype/name checks. -/
def passesStatedChecks (env : Env) (n : xml_node) : Bool :=
  entryEnabled env n && typeInRange env n && lookNameChecksHold env n

/-- The record of an entry with the value of its `looktype` attribute as lookType. -/
def recordOf (env : Env) (n : xml_node) : Outfit :=
  { name := xml_attribute.as_string (n.attribute "name")
    lookType := lookTypeValue env n
    premium := xml_attribute.as_bool env (n.attribute "premium") false
    unlocked := xml_attribute.as_bool env (n.attribute "unlocked") true
    «from» := xml_attribute.as_string (n.attribute "from") }

/-- No `type` value outside the gender range falls into it when reduced modulo
256: a `type` value that is a gender category in 8 bits is one as written. -/
def typeCastExact (env : Env) (n : xml_node) : Bool :=
  match n.attribute "type" with
  | none => true
  | some v =>
    decide (env.toUint v % 256 ≤ PLAYERSEX_LAST.toNat → env.toUint v ≤ PLAYERSEX_LAST.toNat)

/-- The `looktype` value, when present, is at most 65535, the range of the 16-bit
lookType field. -/
def lookTypeCastExact (env : Env) (n : xml_node) : Bool :=
  match n.attribute "looktype" with
  | none => true
  | some v => decide (env.toUint v < 65536)

/-- An example entry whose `type`, 256, is outside the gender range and whose
looktype is 999. -/
def ghost256Node : xml_node :=
  ⟨[("type", "256"), ("looktype", "999"), ("name", "Ghost")]⟩

/-! ## Lookup by looktype -/

theorem scan_eq_none_iff (L : Nat) (l : List Outfit) :
    getOutfitByLookType.scan L l = none ↔ ∀ o ∈ l, o.lookType ≠ L := by
  induction l with
  | nil => simp [getOutfitByLookType.scan]
  | cons a t ih =>
    by_cases ha : a.lookType = L
    · simp [getOutfitByLookType.scan, ha]
    · simp [getOutfitByLookType.scan, ha, ih]

theorem scan_first (L : Nat) (l : List Outfit) (i : Nat) (h : i < l.length)
    (hi : (l.get ⟨i, h⟩).lookType = L)
    (hlt : ∀ (j : Nat) (hj : j < l.length), j < i → (l.get ⟨j, hj⟩).lookType ≠ L) :
    getOutfitByLookType.scan L l = some (l.get ⟨i, h⟩) := by
  induction l generalizing i with
  | nil => simp at h
  | cons a t ih =>
    cases i with
    | zero =>
      have ha : a.lookType = L := by simpa using hi
      simp [getOutfitByLookType.scan, ha]
    | succ k =>
      have ha : a.lookType ≠ L := by
        have := hlt 0 (by simp) (by omega)
        simpa using this
      have hk : k < t.length := by simpa using h
      have hrec := ih k hk (by simpa using hi) (by
        intro j hj hjk
        have := hlt (j + 1) (by simpa using hj) (by omega)
        simpa using this)
      simp [getOutfitByLookType.scan, ha, hrec]

/-- C2: `getOutfitByLookType(g, L)` returns the first record, in insertion order, of
`g`'s collection whose lookType equals `L` (the record at the least matching
position), and it returns not-found exactly when no record of `g`'s collection
has lookType `L`. -/
theorem getOutfitByLookType_first_match (r : Outfits) (g : PlayerSex_t) (L : Nat) :
    (∀ (i : Nat) (h : i < (r.outfits g).length),
        ((r.outfits g).get ⟨i, h⟩).lookType = L →
        (∀ (j : Nat) (hj : j < (r.outfits g).length), j < i →
          ((r.outfits g).get ⟨j, hj⟩).lookType ≠ L) →
        getOutfitByLookType r g L = some ((r.outfits g).get ⟨i, h⟩)) ∧
    (getOutfitByLookType r g L = none ↔ ∀ o ∈ r.outfits g, o.lookType ≠ L) :=
  ⟨fun i h hi hlt => scan_first L (r.outfits g) i h hi hlt,
   scan_eq_none_iff L (r.outfits g)⟩

/-- C2, evaluated: in the example registry the male lookup of 129 returns the second
male record, and the male lookup of 136 (a female looktype) returns not-found. -/
theorem getOutfitByLookType_first_match_witness :
    getOutfitByLookType exampleRegistry PLAYERSEX_MALE 129
        = some ⟨"Hunter", 129, false, true, ""⟩ ∧
    getOutfitByLookType exampleRegistry PLAYERSEX_MALE 136 = none :=
  ⟨(getOutfitByLookType_first_match exampleRegistry PLAYERSEX_MALE 129).1 1
      (by decide) (by decide) (by decide),
   (getOutfitByLookType_first_match exampleRegistry PLAYERSEX_MALE 136).2.2 (by decide)⟩

/-! ## Opposite-sex lookup -/

theorem opposite_loop_found (own opp : List Outfit) (X : Nat) (k : Nat) (hk : k < own.length)
    (hk16 : k < 65536) (hX : (own.get ⟨k, hk⟩).lookType = X) :
    ∀ (fuel i : Nat), i ≤ k → k - i < fuel →
      (∀ (j : Nat) (hj : j < own.length), i ≤ j → j < k → (own.get ⟨j, hj⟩).lookType ≠ X) →
      getOpositeSexOutfitByLookType.loop own opp X fuel i
        = some (if h2 : k < opp.length then some (opp.get ⟨k, h2⟩) else none) := by
  intro fuel
  induction fuel with
  | zero => intro i _ hf; omega
  | succ n ih =>
    intro i hik hf hne
    have hi : i < own.length := by omega
    rcases Nat.eq_or_lt_of_le hik with heq | hlt
    · subst heq
      have hX2 : own[i].lookType = X := hX
      by_cases h2 : i < opp.length <;>
        simp [getOpositeSexOutfitByLookType.loop, hi, hX2, h2]
    · have hne_i : ¬ own[i].lookType = X := hne i hi (le_refl i) hlt
      have hmod : (i + 1) % 65536 = i + 1 := Nat.mod_eq_of_lt (by omega)
      simp only [getOpositeSexOutfitByLookType.loop, hi, dite_true, List.get_eq_getElem,
        hne_i, if_false, hmod]
      exact ih (i + 1) (by omega) (by omega) (fun j hj hij hjk => hne j hj (by omega) hjk)

theorem opposite_loop_absent (own opp : List Outfit) (X : Nat) (hlen : own.length < 65536) :
    ∀ (fuel i : Nat), i ≤ own.length → own.length - i < fuel →
      (∀ (j : Nat) (hj : j < own.length), i ≤ j → (own.get ⟨j, hj⟩).lookType ≠ X) →
      getOpositeSexOutfitByLookType.loop own opp X fuel i = some none := by
  intro fuel
  induction fuel with
  | zero => intro i _ hf; omega
  | succ n ih =>
    intro i hil hf hne
    rcases Nat.eq_or_lt_of_le hil with heq | hlt
    · simp [getOpositeSexOutfitByLookType.loop, heq]
    · have hne_i : ¬ own[i].lookType = X := hne i hlt (le_refl i)
      have hmod : (i + 1) % 65536 = i + 1 := Nat.mod_eq_of_lt (by omega)
      simp only [getOpositeSexOutfitByLookType.loop, hlt, dite_true, List.get_eq_getElem,
        hne_i, if_false, hmod]
      exact ih (i + 1) (by omega) (by omega) (fun j hj hij => hne j hj (by omega))

theorem searchSex_eq (sex : PlayerSex_t) :
    (if sex = PLAYERSEX_MALE then PLAYERSEX_FEMALE else PLAYERSEX_MALE) = oppositeSex sex := by
  cases sex <;> simp [oppositeSex]

/-- C1: in a registry whose gender collections each hold fewer than 65536 records,
`getOpositeSexOutfitByLookType(sex, X)` returns (with any fuel above the size of
`sex`'s collection) the record at position `i` of the opposite gender's
collection, where `i` is the first position of `sex`'s own collection whose
lookType is `X`, whatever that record's lookType; it returns not-found when the
opposite collection has at most `i` records, or when no record of `sex`'s
collection has lookType `X`. -/
theorem getOpositeSexOutfitByLookType_positional (r : Outfits) (sex : PlayerSex_t) (X : Nat)
    (hf : r.female.length < 65536) (hm : r.male.length < 65536)
    (fuel : Nat) (hfuel : (r.outfits sex).length < fuel) :
    (∀ (i : Nat) (h : i < (r.outfits sex).length),
        ((r.outfits sex).get ⟨i, h⟩).lookType = X →
        (∀ (j : Nat) (hj : j < (r.outfits sex).length), j < i →
          ((r.outfits sex).get ⟨j, hj⟩).lookType ≠ X) →
        (∀ (h2 : i < (r.outfits (oppositeSex sex)).length),
          getOpositeSexOutfitByLookType fuel r sex X
            = some (some ((r.outfits (oppositeSex sex)).get ⟨i, h2⟩))) ∧
        ((r.outfits (oppositeSex sex)).length ≤ i →
          getOpositeSexOutfitByLookType fuel r sex X = some none)) ∧
    ((∀ o ∈ r.outfits sex, o.lookType ≠ X) →
      getOpositeSexOutfitByLookType fuel r sex X = some none) := by
  have hown : (r.outfits sex).length < 65536 := by
    cases sex <;> simpa [Outfits.outfits]
  refine ⟨fun i h hi hlt => ?_, fun hnone => ?_⟩
  · have hrun := opposite_loop_found (r.outfits sex) (r.outfits (oppositeSex sex)) X i h
      (by omega) hi fuel 0 (Nat.zero_le i) (by omega) (fun j hj _ hji => hlt j hj hji)
    refine ⟨fun h2 => ?_, fun hle => ?_⟩
    · simp only [getOpositeSexOutfitByLookType, searchSex_eq, hrun, h2, dite_true]
    · have h3 : ¬ i < (r.outfits (oppositeSex sex)).length := by omega
      simp only [getOpositeSexOutfitByLookType, searchSex_eq, hrun, h3, dite_false]
  · simp only [getOpositeSexOutfitByLookType, searchSex_eq]
    exact opposite_loop_absent (r.outfits sex) (r.outfits (oppositeSex sex)) X hown fuel 0
      (Nat.zero_le _) (by omega) (fun j hj _ => hnone _ (List.get_mem _ _ _))

/-- C1, evaluated: in the example registry (three female records, two male ones) the
female looktype 137, at position 1, maps to the male record at position 1. -/
theorem getOpositeSexOutfitByLookType_positional_witness :
    getOpositeSexOutfitByLookType 4 exampleRegistry PLAYERSEX_FEMALE 137
      = some (some ⟨"Hunter", 129, false, true, ""⟩) :=
  ((getOpositeSexOutfitByLookType_positional exampleRegistry PLAYERSEX_FEMALE 137
      (by decide) (by decide) 4 (by decide)).1 1 (by decide) (by decide) (by decide)).1
    (by decide)

/-! ## The loader: one entry -/

theorem body_eq (env : Env) (n : xml_node) :
    loadFromXml.body env n =
      if passesChecks env n = false then Step.skip
      else if env.WARN_UNSAFE_SCRIPTS = true ∧ unregisteredLookType env n = true then Step.abort
      else Step.emplace (entryType env n) (buildOutfit env n) := by
  unfold loadFromXml.body passesChecks entryEnabled typeValid lookNameChecksPass
    unregisteredLookType buildOutfit entryLookType entryType
  generalize xml_attribute.as_bool env (n.attribute "premium") false = pr
  generalize xml_attribute.as_bool env (n.attribute "unlocked") true = un
  generalize xml_attribute.as_string (n.attribute "from") = fr
  cases n.attribute "enabled" <;> cases n.attribute "type" <;>
    cases n.attribute "looktype" <;> cases n.attribute "name" <;>
    simp only [xml_attribute.as_bool, xml_attribute.as_uint, xml_attribute.as_string,
      xml_attribute.empty, String.isEmpty_iff, Option.isSome_none, Option.isSome_some,
      Option.isNone_none, Option.isNone_some, Bool.and_eq_true, Bool.or_eq_true,
      Bool.not_eq_true', decide_eq_true_eq, decide_eq_false_iff_not, bne_iff_ne, beq_iff_eq,
      Bool.false_and, Bool.true_and, Bool.and_true, Bool.and_false, Bool.not_false,
      Bool.not_true, not_lt, ne_eq, PLAYERSEX_LAST, PlayerSex_t.toNat, gt_iff_lt, ← not_le,
      true_or, or_true, if_true, if_false, Bool.false_eq_true, not_true_eq_false, and_false,
      false_and, not_false_eq_true, true_and, and_true, Nat.zero_mod, false_or, or_false] <;>
    first
      | rfl
      | (split_ifs <;> simp_all)

theorem body_skip_of_fails (env : Env) (n : xml_node) (h : passesChecks env n = false) :
    loadFromXml.body env n = Step.skip := by
  rw [body_eq, if_pos h]

theorem body_abort_iff (env : Env) (n : xml_node) :
    loadFromXml.body env n = Step.abort ↔
      env.WARN_UNSAFE_SCRIPTS = true ∧ passesChecks env n = true ∧
        unregisteredLookType env n = true := by
  rw [body_eq]
  by_cases h1 : passesChecks env n = false
  · simp [h1]
  · have h1t : passesChecks env n = true := by simpa using h1
    by_cases h2 : env.WARN_UNSAFE_SCRIPTS = true ∧ unregisteredLookType env n = true
    · simp [h1t, h2]
    · rw [if_neg h1, if_neg h2]
      constructor
      · intro h; cases h
      · rintro ⟨a, _, c⟩; exact absurd ⟨a, c⟩ h2

theorem body_emplace_of_passes (env : Env) (n : xml_node) (h : passesChecks env n = true)
    (hsafe : ¬ (env.WARN_UNSAFE_SCRIPTS = true ∧ unregisteredLookType env n = true)) :
    loadFromXml.body env n = Step.emplace (entryType env n) (buildOutfit env n) := by
  rw [body_eq, if_neg (by simp [h]), if_neg hsafe]

/-! ## The loader: the whole file -/

theorem emplace_back_outfits (r : Outfits) (t : Nat) (o : Outfit) (g : PlayerSex_t) :
    (r.emplace_back t o).outfits g =
      if t = g.toNat then r.outfits g ++ [o] else r.outfits g := by
  unfold Outfits.emplace_back
  cases g <;> simp only [PlayerSex_t.toNat] <;> split_ifs <;>
    simp_all [Outfits.outfits]

theorem recordsFor_cons (env : Env) (g : PlayerSex_t) (n : xml_node) (l : List xml_node) :
    recordsFor env g (n :: l) =
      (if passesChecks env n = true ∧ entryType env n = g.toNat then [buildOutfit env n]
        else []) ++ recordsFor env g l := by
  unfold recordsFor
  by_cases h : passesChecks env n = true ∧ entryType env n = g.toNat
  · simp [List.filter_cons, h]
  · rw [if_neg h]
    have : (passesChecks env n && decide (entryType env n = g.toNat)) = false := by
      simpa using h
    simp [List.filter_cons, this]

theorem loop_append (env : Env) (pre l : List xml_node) (r : Outfits) :
    loadFromXml.loop env (pre ++ l) r =
      if (loadFromXml.loop env pre r).1 = true then
        loadFromXml.loop env l (loadFromXml.loop env pre r).2
      else loadFromXml.loop env pre r := by
  induction pre generalizing r with
  | nil => simp [loadFromXml.loop, Outfits.shrink_to_fit]
  | cons n t ih =>
    simp only [List.cons_append, loadFromXml.loop]
    cases loadFromXml.body env n with
    | skip => exact ih r
    | abort => simp
    | emplace ty o => exact ih _

theorem loop_skip_mid (env : Env) (pre post : List xml_node) (n : xml_node) (r : Outfits)
    (h : loadFromXml.body env n = Step.skip) :
    loadFromXml.loop env (pre ++ n :: post) r = loadFromXml.loop env (pre ++ post) r := by
  rw [loop_append, loop_append env pre post]
  simp only [loadFromXml.loop, h]

theorem loop_no_abort (env : Env) (l : List xml_node) :
    ∀ (r : Outfits), (∀ n ∈ l, loadFromXml.body env n ≠ Step.abort) →
      (loadFromXml.loop env l r).1 = true ∧
      ∀ g, (loadFromXml.loop env l r).2.outfits g = r.outfits g ++ recordsFor env g l := by
  induction l with
  | nil => intro r _; simp [loadFromXml.loop, Outfits.shrink_to_fit, recordsFor]
  | cons n t ih =>
    intro r hna
    have hn : loadFromXml.body env n ≠ Step.abort := hna n (List.mem_cons_self _ _)
    have ht : ∀ x ∈ t, loadFromXml.body env x ≠ Step.abort :=
      fun x hx => hna x (List.mem_cons_of_mem _ hx)
    by_cases hp : passesChecks env n = true
    · have hsafe : ¬ (env.WARN_UNSAFE_SCRIPTS = true ∧ unregisteredLookType env n = true) :=
        fun hc => hn ((body_abort_iff env n).2 ⟨hc.1, hp, hc.2⟩)
      have hb := body_emplace_of_passes env n hp hsafe
      simp only [loadFromXml.loop, hb]
      refine ⟨(ih _ ht).1, fun g => ?_⟩
      rw [(ih _ ht).2 g, emplace_back_outfits, recordsFor_cons]
      by_cases hg : entryType env n = g.toNat
      · simp [hp, hg]
      · simp [hg]
    · have hpf : passesChecks env n = false := by simpa using hp
      have hb := body_skip_of_fails env n hpf
      simp only [loadFromXml.loop, hb]
      refine ⟨(ih _ ht).1, fun g => ?_⟩
      rw [(ih _ ht).2 g, recordsFor_cons]
      simp [hpf]

theorem loop_false_iff (env : Env) (l : List xml_node) :
    ∀ (r : Outfits), (loadFromXml.loop env l r).1 = false ↔
      ∃ n ∈ l, loadFromXml.body env n = Step.abort := by
  induction l with
  | nil => intro r; simp [loadFromXml.loop]
  | cons n t ih =>
    intro r
    simp only [loadFromXml.loop, List.mem_cons, exists_eq_or_imp]
    cases hb : loadFromXml.body env n with
    | skip => simpa using ih r
    | abort => simp
    | emplace ty o => simpa using ih _

/-! ## The loader's reading of the values and the values as written -/

theorem typeValid_eq_typeInRange (env : Env) (n : xml_node) (h : typeCastExact env n = true) :
    typeValid env n = typeInRange env n := by
  unfold typeValid typeInRange entryType
  unfold typeCastExact at h
  cases hattr : n.attribute "type" with
  | none => simp
  | some v =>
    rw [hattr] at h
    simp only [decide_eq_true_eq] at h
    simp only [Option.isSome_some, Bool.true_and]
    by_cases hv : env.toUint v ≤ PLAYERSEX_LAST.toNat
    · have : env.toUint v % 256 ≤ PLAYERSEX_LAST.toNat :=
        le_trans (Nat.mod_le _ _) hv
      simp [hv, this]
    · have : ¬ env.toUint v % 256 ≤ PLAYERSEX_LAST.toNat := fun hc => hv (h hc)
      simp [hv, this]

theorem entryType_eq_typeValue (env : Env) (n : xml_node) (h : typeInRange env n = true) :
    entryType env n = typeValue env n := by
  unfold typeInRange at h
  unfold entryType typeValue
  cases hattr : n.attribute "type" with
  | none => rfl
  | some v =>
    rw [hattr] at h
    simp only [decide_eq_true_eq, PLAYERSEX_LAST, PlayerSex_t.toNat] at h
    exact Nat.mod_eq_of_lt (by omega)

theorem entryLookType_eq_lookTypeValue (env : Env) (n : xml_node)
    (h : lookTypeCastExact env n = true) : entryLookType env n = lookTypeValue env n := by
  unfold lookTypeCastExact at h
  unfold entryLookType lookTypeValue
  cases hattr : n.attribute "looktype" with
  | none => rfl
  | some v =>
    rw [hattr] at h
    simp only [decide_eq_true_eq] at h
    exact Nat.mod_eq_of_lt h

theorem lookNameChecksPass_eq_hold (env : Env) (n : xml_node)
    (h : lookTypeCastExact env n = true) :
    lookNameChecksPass env n = lookNameChecksHold env n := by
  have hval := entryLookType_eq_lookTypeValue env n h
  unfold lookNameChecksPass lookNameChecksHold
  cases hattr : n.attribute "looktype" with
  | none => rfl
  | some v =>
    have hv : entryLookType env n = env.toUint v := by
      rw [hval]; simp [lookTypeValue, hattr]
    simp only [hv]
    cases decide (v ≠ "") <;> cases env.isNumber v <;> cases decide (env.toUint v ≠ 0) <;> rfl

theorem lookNameChecksPass_false_of_hold_false (env : Env) (n : xml_node)
    (h : lookNameChecksHold env n = false) : lookNameChecksPass env n = false := by
  cases hp : lookNameChecksPass env n with
  | false => rfl
  | true =>
    exfalso
    unfold lookNameChecksPass entryLookType at hp
    unfold lookNameChecksHold at h
    cases hattr : n.attribute "looktype" with
    | none => rw [hattr] at h; cases h
    | some v =>
      rw [hattr] at h hp
      simp only [Bool.and_eq_true, decide_eq_true_eq] at hp
      obtain ⟨⟨⟨h1, h2⟩, h3⟩, h4⟩ := hp
      have hz : env.toUint v ≠ 0 := fun hc => h2 (by rw [hc])
      cases hname : n.attribute "name" with
      | none => rw [hname] at h4; cases h4
      | some nm =>
        rw [hname] at h4 h
        simp only [decide_eq_true_eq] at h4
        simp [h1, h3, hz, h4] at h

theorem passesChecks_eq_stated (env : Env) (n : xml_node) (ht : typeCastExact env n = true)
    (hl : lookTypeCastExact env n = true) :
    passesChecks env n = passesStatedChecks env n := by
  unfold passesChecks passesStatedChecks
  rw [typeValid_eq_typeInRange env n ht, lookNameChecksPass_eq_hold env n hl]

theorem buildOutfit_eq_recordOf (env : Env) (n : xml_node)
    (hl : lookTypeCastExact env n = true) : buildOutfit env n = recordOf env n := by
  unfold buildOutfit recordOf
  rw [entryLookType_eq_lookTypeValue env n hl]

theorem recordsFor_eq_stated (env : Env) (g : PlayerSex_t) (l : List xml_node)
    (h : ∀ n ∈ l, typeCastExact env n = true ∧ lookTypeCastExact env n = true) :
    recordsFor env g l =
      (l.filter (fun n => passesStatedChecks env n && decide (typeValue env n = g.toNat))).map
        (recordOf env) := by
  induction l with
  | nil => rfl
  | cons n t ih =>
    have hn := h n (List.mem_cons_self _ _)
    have ht := ih (fun x hx => h x (List.mem_cons_of_mem _ hx))
    have hps := passesChecks_eq_stated env n hn.1 hn.2
    rw [recordsFor_cons, ht]
    simp only [List.filter_cons]
    by_cases hp : passesChecks env n = true
    · have hin : typeInRange env n = true := by
        have := hp
        simp only [passesChecks, Bool.and_eq_true] at this
        rw [← typeValid_eq_typeInRange env n hn.1]; exact this.1.2
      have hty := entryType_eq_typeValue env n hin
      have hp2 : passesStatedChecks env n = true := by rw [← hps]; exact hp
      by_cases hg : entryType env n = g.toNat
      · have hg2 : typeValue env n = g.toNat := by rw [← hty]; exact hg
        simp [hp, hp2, hg, hg2, buildOutfit_eq_recordOf env n hn.2]
      · have hg2 : ¬ typeValue env n = g.toNat := by rw [← hty]; exact hg
        simp [hp2, hg, hg2]
    · have hpf : passesChecks env n = false := by simpa using hp
      have hp2 : passesStatedChecks env n = false := by rw [← hps]; exact hpf
      simp [hpf, hp2]

/-! ## The loader: when the load fails -/

/-- C3, counterexample: with the flag on and nothing registered, the file with the
single entry `type="256" looktype="999" name="Ghost"` fails to load although no
entry of it has a `type` value in the gender range; and the file with the single
male entry `looktype="65536" name="Citizen"`, which is enabled, has a valid
type, passes the looktype/name checks as written and carries a non-zero
unregistered looktype, loads successfully. -/
theorem loadFromXml_abort_on_wrapped_values :
    ((loadFromXml (exampleEnv true []) (some [ghost256Node]) Outfits.empty).1 = false ∧
      ¬ ((exampleEnv true []).WARN_UNSAFE_SCRIPTS = true ∧
        ∃ n ∈ [ghost256Node], entryEnabled (exampleEnv true []) n = true ∧
          typeInRange (exampleEnv true []) n = true ∧
          lookNameChecksHold (exampleEnv true []) n = true ∧
          lookTypeValue (exampleEnv true []) n ≠ 0 ∧
          (exampleEnv true []).isLookTypeRegistered (lookTypeValue (exampleEnv true []) n)
            = false)) ∧
    ((loadFromXml (exampleEnv true []) (some [wrappedLookNode]) Outfits.empty).1 = true ∧
      ((exampleEnv true []).WARN_UNSAFE_SCRIPTS = true ∧
        ∃ n ∈ [wrappedLookNode], entryEnabled (exampleEnv true []) n = true ∧
          typeInRange (exampleEnv true []) n = true ∧
          lookNameChecksHold (exampleEnv true []) n = true ∧
          lookTypeValue (exampleEnv true []) n ≠ 0 ∧
          (exampleEnv true []).isLookTypeRegistered (lookTypeValue (exampleEnv true []) n)
            = false)) := by
  decide

/-- C3, amended: on a parsed file in which no `type` value outside the gender range
falls into it when reduced modulo 256 and every `looktype` value is at most
65535, `loadFromXml` returns false if and only if the flag is enabled and some
entry that is enabled, has a `type` value in the gender range and passes the
looktype/name checks carries a non-zero looktype outside the registered set;
on every parsed file it returns true when the flag is disabled; and an entry
that is disabled, fails the looktype/name checks, or has a `type` value out of
range (and not falling into it modulo 256) can be removed from any file without
changing the outcome, whatever its looktype. -/
theorem loadFromXml_fails_only_on_unregistered (env : Env) (children : List xml_node)
    (r : Outfits) :
    ((∀ n ∈ children, typeCastExact env n = true ∧ lookTypeCastExact env n = true) →
      ((loadFromXml env (some children) r).1 = false ↔
        env.WARN_UNSAFE_SCRIPTS = true ∧
        ∃ n ∈ children, entryEnabled env n = true ∧ typeInRange env n = true ∧
          lookNameChecksHold env n = true ∧ lookTypeValue env n ≠ 0 ∧
          env.isLookTypeRegistered (lookTypeValue env n) = false)) ∧
    (env.WARN_UNSAFE_SCRIPTS = false → (loadFromXml env (some children) r).1 = true) ∧
    (∀ (pre post : List xml_node) (n : xml_node),
      (entryEnabled env n = false ∨ lookNameChecksHold env n = false ∨
        (typeInRange env n = false ∧ typeCastExact env n = true)) →
      loadFromXml env (some (pre ++ n :: post)) r
        = loadFromXml env (some (pre ++ post)) r) := by
  have hfalse : (loadFromXml env (some children) r).1 = false ↔
      ∃ n ∈ children, loadFromXml.body env n = Step.abort :=
    loop_false_iff env children r
  refine ⟨fun hfit => ?_, fun hoff => ?_, fun pre post n hbad => ?_⟩
  · rw [hfalse]
    constructor
    · rintro ⟨n, hn, hb⟩
      obtain ⟨hw, hp, hu⟩ := (body_abort_iff env n).1 hb
      obtain ⟨ht, hl⟩ := hfit n hn
      rw [passesChecks_eq_stated env n ht hl] at hp
      simp only [passesStatedChecks, Bool.and_eq_true] at hp
      simp only [unregisteredLookType, entryLookType_eq_lookTypeValue env n hl,
        Bool.and_eq_true, decide_eq_true_eq, Bool.not_eq_true'] at hu
      exact ⟨hw, n, hn, hp.1.1, hp.1.2, hp.2, hu.1, hu.2⟩
    · rintro ⟨hw, n, hn, h1, h2, h3, h4, h5⟩
      obtain ⟨ht, hl⟩ := hfit n hn
      refine ⟨n, hn, (body_abort_iff env n).2 ⟨hw, ?_, ?_⟩⟩
      · rw [passesChecks_eq_stated env n ht hl]
        simp [passesStatedChecks, h1, h2, h3]
      · simp [unregisteredLookType, entryLookType_eq_lookTypeValue env n hl, h4, h5]
  · cases hres : (loadFromXml env (some children) r).1 with
    | true => rfl
    | false =>
      obtain ⟨n, _, hb⟩ := hfalse.1 hres
      have := ((body_abort_iff env n).1 hb).1
      rw [hoff] at this
      cases this
  · show loadFromXml.loop env (pre ++ n :: post) r = loadFromXml.loop env (pre ++ post) r
    apply loop_skip_mid
    apply body_skip_of_fails
    rcases hbad with h | h | ⟨h, hc⟩
    · simp [passesChecks, h]
    · simp [passesChecks, lookNameChecksPass_false_of_hold_false env n h]
    · simp [passesChecks, typeValid_eq_typeInRange env n hc, h]

/-- C3 amended, evaluated: with the flag on and only looktype 128 registered, a file
holding the entry with looktype 999 fails to load. -/
theorem loadFromXml_fails_only_on_unregistered_witness :
    (loadFromXml (exampleEnv true [128]) (some [citizenNode, hunterNode]) Outfits.empty).1
      = false :=
  ((loadFromXml_fails_only_on_unregistered (exampleEnv true [128]) [citizenNode, hunterNode]
    Outfits.empty).1 (by decide)).2 ⟨rfl, hunterNode, by decide, by decide, by decide,
      by decide, by decide, by decide⟩

/-- C4: when the flag is enabled and the first entry that passes the checks with a
non-zero unregistered looktype stands at position `pre.length`, `loadFromXml`
returns false and each gender collection is its prior content followed by
exactly the records of the accepted entries before that position, in file order;
nothing at or after that position is appended. -/
theorem loadFromXml_abort_keeps_earlier (env : Env) (pre post : List xml_node) (n : xml_node)
    (r : Outfits) (hflag : env.WARN_UNSAFE_SCRIPTS = true)
    (hpre : ∀ x ∈ pre, ¬ (passesChecks env x = true ∧ unregisteredLookType env x = true))
    (hn : passesChecks env n = true ∧ unregisteredLookType env n = true) :
    (loadFromXml env (some (pre ++ n :: post)) r).1 = false ∧
    ∀ g, (loadFromXml env (some (pre ++ n :: post)) r).2.outfits g
      = r.outfits g ++
        ((pre.filter (fun x => passesChecks env x && decide (entryType env x = g.toNat))).map
          (buildOutfit env)) := by
  have hpre2 : ∀ x ∈ pre, loadFromXml.body env x ≠ Step.abort := by
    intro x hx hb
    obtain ⟨_, hp, hu⟩ := (body_abort_iff env x).1 hb
    exact hpre x hx ⟨hp, hu⟩
  have hb : loadFromXml.body env n = Step.abort := (body_abort_iff env n).2 ⟨hflag, hn.1, hn.2⟩
  obtain ⟨h1, h2⟩ := loop_no_abort env pre r hpre2
  have hrun : loadFromXml env (some (pre ++ n :: post)) r
      = (false, (loadFromXml.loop env pre r).2) := by
    show loadFromXml.loop env (pre ++ n :: post) r = _
    rw [loop_append, if_pos h1]
    simp only [loadFromXml.loop, hb]
  rw [hrun]
  exact ⟨rfl, fun g => h2 g⟩

/-- C4, evaluated: with the flag on and only 128 and 136 registered, the file
Citizen(128), Hunter(999), Queen(136) fails and leaves exactly the Citizen record. -/
theorem loadFromXml_abort_keeps_earlier_witness :
    (loadFromXml (exampleEnv true [128, 136]) (some [citizenNode, hunterNode, queenNode])
        Outfits.empty).1 = false ∧
    (loadFromXml (exampleEnv true [128, 136]) (some [citizenNode, hunterNode, queenNode])
        Outfits.empty).2.outfits PLAYERSEX_MALE = [⟨"Citizen", 128, false, true, ""⟩] ∧
    (loadFromXml (exampleEnv true [128, 136]) (some [citizenNode, hunterNode, queenNode])
        Outfits.empty).2.outfits PLAYERSEX_FEMALE = [] :=
  have h := loadFromXml_abort_keeps_earlier (exampleEnv true [128, 136]) [citizenNode]
    [queenNode] hunterNode Outfits.empty rfl (by decide) (by decide)
  ⟨h.1, (h.2 PLAYERSEX_MALE).trans (by decide), (h.2 PLAYERSEX_FEMALE).trans (by decide)⟩

/-! ## The loader: file order -/

/-- C7, counterexample: with the flag off and an empty registry, the file with the
single entry `type="256"` leaves a record in the female collection although no
entry of type female passes the checks; and the file with the single male entry
`looktype="65536"`, which passes the checks as written, leaves the male
collection empty. -/
theorem loadFromXml_file_order_on_wrapped_values :
    ((loadFromXml (exampleEnv false []) (some [type256Node]) Outfits.empty).2.outfits
          PLAYERSEX_FEMALE = [⟨"Citizen", 128, false, true, ""⟩] ∧
      ([type256Node].filter
          (fun n => passesStatedChecks (exampleEnv false []) n &&
            decide (typeValue (exampleEnv false []) n = PLAYERSEX_FEMALE.toNat))).map
          (recordOf (exampleEnv false [])) = []) ∧
    ((loadFromXml (exampleEnv false []) (some [wrappedLookNode]) Outfits.empty).2.outfits
          PLAYERSEX_MALE = [] ∧
      ([wrappedLookNode].filter
          (fun n => passesStatedChecks (exampleEnv false []) n &&
            decide (typeValue (exampleEnv false []) n = PLAYERSEX_MALE.toNat))).map
          (recordOf (exampleEnv false [])) = [⟨"Citizen", 65536, false, true, ""⟩]) := by
  decide

/-- C7, amended: with the flag disabled, loading into an empty registry a parsed
file in which no `type` value outside the gender range falls into it when
reduced modulo 256 and every `looktype` value is at most 65535 succeeds and
leaves in each gender collection exactly the records of the entries whose `type`
value is that gender and that pass the per-entry checks (enabled, type present
and in range, looktype/name checks), in the order of the file. -/
theorem loadFromXml_keeps_file_order (env : Env) (children : List xml_node)
    (hflag : env.WARN_UNSAFE_SCRIPTS = false)
    (hfit : ∀ n ∈ children, typeCastExact env n = true ∧ lookTypeCastExact env n = true) :
    (loadFromXml env (some children) Outfits.empty).1 = true ∧
    ∀ g, (loadFromXml env (some children) Outfits.empty).2.outfits g
      = (children.filter
          (fun n => passesStatedChecks env n && decide (typeValue env n = g.toNat))).map
          (recordOf env) := by
  have hna : ∀ x ∈ children, loadFromXml.body env x ≠ Step.abort := by
    intro x _ hb
    have := ((body_abort_iff env x).1 hb).1
    rw [hflag] at this
    cases this
  obtain ⟨h1, h2⟩ := loop_no_abort env children Outfits.empty hna
  refine ⟨h1, fun g => ?_⟩
  have := h2 g
  rw [recordsFor_eq_stated env g children hfit] at this
  cases g <;> simpa [Outfits.empty, Outfits.outfits] using this

/-- C7 amended, evaluated: with the flag off, the file Citizen(male), Queen(female),
Hunter(male) yields the male collection Citizen, Hunter and the female one Queen. -/
theorem loadFromXml_keeps_file_order_witness :
    (loadFromXml (exampleEnv false []) (some [citizenNode, queenNode, hunterNode])
        Outfits.empty).2.outfits PLAYERSEX_MALE
      = [⟨"Citizen", 128, false, true, ""⟩, ⟨"Hunter", 999, false, true, ""⟩] ∧
    (loadFromXml (exampleEnv false []) (some [citizenNode, queenNode, hunterNode])
        Outfits.empty).2.outfits PLAYERSEX_FEMALE
      = [⟨"Queen", 136, false, false, ""⟩] :=
  have h := loadFromXml_keeps_file_order (exampleEnv false [])
    [citizenNode, queenNode, hunterNode] rfl (by decide)
  ⟨(h.2 PLAYERSEX_MALE).trans (by decide), (h.2 PLAYERSEX_FEMALE).trans (by decide)⟩

/-! ## The loader: entries that are skipped -/

/-- C8: an entry whose `looktype` attribute is present but empty, not a number, or
read as zero is skipped: its iteration appends nothing and does not fail, and
the load of any file containing it equals the load of the file without it. -/
theorem loadFromXml_skips_bad_looktype (env : Env) (n : xml_node) (s : String)
    (hattr : n.attribute "looktype" = some s)
    (hbad : s = "" ∨ env.isNumber s = false ∨ env.toUint s = 0) :
    loadFromXml.body env n = Step.skip ∧
    ∀ (pre post : List xml_node) (r : Outfits),
      loadFromXml env (some (pre ++ n :: post)) r
        = loadFromXml env (some (pre ++ post)) r := by
  have hfail : passesChecks env n = false := by
    have : lookNameChecksPass env n = false := by
      unfold lookNameChecksPass entryLookType
      rw [hattr]
      rcases hbad with h | h | h <;> simp [h]
    simp [passesChecks, this]
  have hb := body_skip_of_fails env n hfail
  exact ⟨hb, fun pre post r => loop_skip_mid env pre post n r hb⟩

/-- C8, evaluated: with the flag on, the entry with `looktype="0"` between two
registered entries leaves the load as if it were not in the file. -/
theorem loadFromXml_skips_bad_looktype_witness :
    loadFromXml (exampleEnv true [128, 136]) (some ([citizenNode] ++ zeroLookNode :: [queenNode]))
        Outfits.empty
      = loadFromXml (exampleEnv true [128, 136]) (some ([citizenNode] ++ [queenNode]))
        Outfits.empty :=
  (loadFromXml_skips_bad_looktype (exampleEnv true [128, 136]) zeroLookNode "0" (by decide)
    (Or.inr (Or.inr (by decide)))).2 [citizenNode] [queenNode] Outfits.empty

/-- C9: an entry with a `looktype` attribute (in particular a non-empty, numeric,
non-zero one) whose `name` attribute is missing or empty is skipped: its
iteration ends in `continue` (before the unregistered-looktype check, so it
neither appends nor aborts), and the load of any file containing it equals the
load of the file without it. -/
theorem loadFromXml_skips_missing_name (env : Env) (n : xml_node) (s : String)
    (hattr : n.attribute "looktype" = some s)
    (hname : n.attribute "name" = none ∨ n.attribute "name" = some "") :
    loadFromXml.body env n = Step.skip ∧
    loadFromXml.body env n ≠ Step.abort ∧
    ∀ (pre post : List xml_node) (r : Outfits),
      loadFromXml env (some (pre ++ n :: post)) r
        = loadFromXml env (some (pre ++ post)) r := by
  have hfail : passesChecks env n = false := by
    have : lookNameChecksPass env n = false := by
      unfold lookNameChecksPass
      rw [hattr]
      rcases hname with h | h <;> simp [h]
    simp [passesChecks, this]
  have hb := body_skip_of_fails env n hfail
  exact ⟨hb, by rw [hb]; simp, fun pre post r => loop_skip_mid env pre post n r hb⟩

/-- C9, evaluated: with the flag on and 999 unregistered, the nameless entry with
the valid looktype 999 does not abort the load; the load equals that of the file
without it. -/
theorem loadFromXml_skips_missing_name_witness :
    ("999" ≠ "" ∧ allDigits "999" = true ∧ decimalUint "999" ≠ 0) ∧
    loadFromXml.body (exampleEnv true [128]) namelessNode = Step.skip ∧
    loadFromXml (exampleEnv true [128]) (some ([citizenNode] ++ namelessNode :: []))
        Outfits.empty
      = loadFromXml (exampleEnv true [128]) (some ([citizenNode] ++ [])) Outfits.empty :=
  have h := loadFromXml_skips_missing_name (exampleEnv true [128]) namelessNode "999"
    (by decide) (Or.inl (by decide))
  ⟨by decide, h.1, h.2.2 [citizenNode] [] Outfits.empty⟩

/-! ## The loader: entries that are appended -/

theorem emplace_back_opposite (r : Outfits) (g : PlayerSex_t) (o : Outfit) :
    (r.emplace_back g.toNat o).outfits g = r.outfits g ++ [o] ∧
    (r.emplace_back g.toNat o).outfits (oppositeSex g) = r.outfits (oppositeSex g) := by
  cases g <;> simp [emplace_back_outfits, oppositeSex, PlayerSex_t.toNat]

theorem loop_emplace_mid (env : Env) (pre post : List xml_node) (n : xml_node)
    (r r1 : Outfits) (t : Nat) (o : Outfit)
    (hb : loadFromXml.body env n = Step.emplace t o)
    (hpre : loadFromXml env (some pre) r = (true, r1)) :
    loadFromXml env (some (pre ++ n :: post)) r
      = loadFromXml env (some post) (r1.emplace_back t o) := by
  have hpre2 : loadFromXml.loop env pre r = (true, r1) := hpre
  show loadFromXml.loop env (pre ++ n :: post) r = loadFromXml.loop env post _
  rw [loop_append, hpre2]
  simp only [loadFromXml.loop, hb, if_true]

/-- C10: an enabled entry with an in-range `type` `g` and no `looktype` attribute
is appended to `g`'s collection with lookType 0, whatever its name attribute,
the flag and the registered set: its iteration reaches `emplace_back` (it never
aborts), and in any file whose earlier entries load without abort the load
continues with that record appended to `g`'s collection only. -/
theorem loadFromXml_appends_without_looktype (env : Env) (n : xml_node) (g : PlayerSex_t)
    (t : String) (henabled : entryEnabled env n = true)
    (htype : n.attribute "type" = some t) (hrange : env.toUint t = g.toNat)
    (hlook : n.attribute "looktype" = none) :
    loadFromXml.body env n = Step.emplace g.toNat
      { name := xml_attribute.as_string (n.attribute "name")
        lookType := 0
        premium := xml_attribute.as_bool env (n.attribute "premium") false
        unlocked := xml_attribute.as_bool env (n.attribute "unlocked") true
        «from» := xml_attribute.as_string (n.attribute "from") } ∧
    ∀ (pre post : List xml_node) (r r1 : Outfits),
      loadFromXml env (some pre) r = (true, r1) →
      ∃ r2, loadFromXml env (some (pre ++ n :: post)) r = loadFromXml env (some post) r2 ∧
        r2.outfits g = r1.outfits g ++
          [{ name := xml_attribute.as_string (n.attribute "name")
             lookType := 0
             premium := xml_attribute.as_bool env (n.attribute "premium") false
             unlocked := xml_attribute.as_bool env (n.attribute "unlocked") true
             «from» := xml_attribute.as_string (n.attribute "from") }] ∧
        r2.outfits (oppositeSex g) = r1.outfits (oppositeSex g) := by
  have hg : g.toNat % 256 = g.toNat := by cases g <;> rfl
  have hty : entryType env n = g.toNat := by
    simp [entryType, htype, hrange, hg]
  have hlt : entryLookType env n = 0 := by simp [entryLookType, hlook]
  have hp : passesChecks env n = true := by
    have h1 : typeValid env n = true := by
      simp only [typeValid, htype, hty, Option.isSome_some, Bool.true_and, decide_eq_true_eq]
      cases g <;> decide
    have h2 : lookNameChecksPass env n = true := by simp [lookNameChecksPass, hlook]
    simp [passesChecks, henabled, h1, h2]
  have hsafe : ¬ (env.WARN_UNSAFE_SCRIPTS = true ∧ unregisteredLookType env n = true) := by
    simp [unregisteredLookType, hlt]
  have hb := body_emplace_of_passes env n hp hsafe
  rw [hty] at hb
  have hrec : buildOutfit env n =
      { name := xml_attribute.as_string (n.attribute "name")
        lookType := 0
        premium := xml_attribute.as_bool env (n.attribute "premium") false
        unlocked := xml_attribute.as_bool env (n.attribute "unlocked") true
        «from» := xml_attribute.as_string (n.attribute "from") } := by
    simp [buildOutfit, hlt]
  rw [hrec] at hb
  refine ⟨hb, fun pre post r r1 hpre => ⟨_, loop_emplace_mid env pre post n r r1 _ _ hb hpre, ?_⟩⟩
  exact emplace_back_opposite r1 g _

/-- C10, evaluated: with the flag on and nothing registered, the entry with only
`type="0"` is appended to the female collection with lookType 0 and empty name. -/
theorem loadFromXml_appends_without_looktype_witness :
    loadFromXml.body (exampleEnv true []) bareNode
      = Step.emplace 0 ⟨"", 0, false, true, ""⟩ :=
  (loadFromXml_appends_without_looktype (exampleEnv true []) bareNode PLAYERSEX_FEMALE "0"
    (by decide) (by decide) (by decide) (by decide)).1

/-- C6, counterexample: with the flag off, the enabled male entry with name
"Citizen" and `looktype="65537"` (non-empty, numeric, non-zero) is appended with
lookType 1, not 65537; and the like entry with `looktype="65536"` is skipped. -/
theorem loadFromXml_looktype_not_numeric_value :
    (entryEnabled (exampleEnv false []) wideLookNode = true ∧
      wideLookNode.attribute "type" = some "1" ∧
      decimalUint "1" = PLAYERSEX_MALE.toNat ∧
      wideLookNode.attribute "looktype" = some "65537" ∧
      "65537" ≠ "" ∧ allDigits "65537" = true ∧ decimalUint "65537" = 65537 ∧
      wideLookNode.attribute "name" = some "Citizen" ∧
      loadFromXml (exampleEnv false []) (some [wideLookNode]) Outfits.empty
        = (true, ⟨[], [⟨"Citizen", 1, false, true, ""⟩]⟩)) ∧
    (entryEnabled (exampleEnv false []) wrappedLookNode = true ∧
      wrappedLookNode.attribute "type" = some "1" ∧
      wrappedLookNode.attribute "looktype" = some "65536" ∧
      "65536" ≠ "" ∧ allDigits "65536" = true ∧ decimalUint "65536" = 65536 ∧
      wrappedLookNode.attribute "name" = some "Citizen" ∧
      loadFromXml (exampleEnv false []) (some [wrappedLookNode]) Outfits.empty
        = (true, ⟨[], []⟩)) := by
  decide

/-- C6, amended: an entry that is not disabled, has an in-range `type` `g`, a
`looktype` attribute that is non-empty, numeric and of a value between 1 and
65535, and a non-empty `name`, and that does not trip the unregistered-looktype
check, is appended to `g`'s collection as one record whose name is the entry's
name and whose lookType is the numeric value of the looktype attribute. -/
theorem loadFromXml_appends_valid_entry (env : Env) (n : xml_node) (g : PlayerSex_t)
    (t s nm : String) (henabled : entryEnabled env n = true)
    (htype : n.attribute "type" = some t) (hrange : env.toUint t = g.toNat)
    (hlook : n.attribute "looktype" = some s) (hne : s ≠ "")
    (hnum : env.isNumber s = true) (hpos : 0 < env.toUint s) (hfit : env.toUint s < 65536)
    (hname : n.attribute "name" = some nm) (hnm : nm ≠ "")
    (hsafe : env.WARN_UNSAFE_SCRIPTS = false ∨ env.isLookTypeRegistered (env.toUint s) = true) :
    loadFromXml.body env n = Step.emplace g.toNat
      { name := nm
        lookType := env.toUint s
        premium := xml_attribute.as_bool env (n.attribute "premium") false
        unlocked := xml_attribute.as_bool env (n.attribute "unlocked") true
        «from» := xml_attribute.as_string (n.attribute "from") } ∧
    ∀ (pre post : List xml_node) (r r1 : Outfits),
      loadFromXml env (some pre) r = (true, r1) →
      ∃ r2, loadFromXml env (some (pre ++ n :: post)) r = loadFromXml env (some post) r2 ∧
        r2.outfits g = r1.outfits g ++
          [{ name := nm
             lookType := env.toUint s
             premium := xml_attribute.as_bool env (n.attribute "premium") false
             unlocked := xml_attribute.as_bool env (n.attribute "unlocked") true
             «from» := xml_attribute.as_string (n.attribute "from") }] ∧
        r2.outfits (oppositeSex g) = r1.outfits (oppositeSex g) := by
  have hg : g.toNat % 256 = g.toNat := by cases g <;> rfl
  have hty : entryType env n = g.toNat := by
    simp [entryType, htype, hrange, hg]
  have hlt : entryLookType env n = env.toUint s := by
    simp [entryLookType, hlook, Nat.mod_eq_of_lt hfit]
  have hp : passesChecks env n = true := by
    have h1 : typeValid env n = true := by
      simp only [typeValid, htype, hty, Option.isSome_some, Bool.true_and, decide_eq_true_eq]
      cases g <;> decide
    have h2 : lookNameChecksPass env n = true := by
      have : env.toUint s ≠ 0 := by omega
      simp [lookNameChecksPass, hlook, hname, hlt, hne, hnum, hnm, this]
    simp [passesChecks, henabled, h1, h2]
  have hok : ¬ (env.WARN_UNSAFE_SCRIPTS = true ∧ unregisteredLookType env n = true) := by
    rcases hsafe with h | h
    · simp [h]
    · simp [unregisteredLookType, hlt, h]
  have hb := body_emplace_of_passes env n hp hok
  rw [hty] at hb
  have hrec : buildOutfit env n =
      { name := nm
        lookType := env.toUint s
        premium := xml_attribute.as_bool env (n.attribute "premium") false
        unlocked := xml_attribute.as_bool env (n.attribute "unlocked") true
        «from» := xml_attribute.as_string (n.attribute "from") } := by
    simp [buildOutfit, hlt, hname, xml_attribute.as_string]
  rw [hrec] at hb
  refine ⟨hb, fun pre post r r1 hpre => ⟨_, loop_emplace_mid env pre post n r r1 _ _ hb hpre, ?_⟩⟩
  exact emplace_back_opposite r1 g _

/-- C6 amended, evaluated: with the flag on and 128 registered, the Citizen entry
is appended to the male collection with lookType 128. -/
theorem loadFromXml_appends_valid_entry_witness :
    loadFromXml.body (exampleEnv true [128]) citizenNode
      = Step.emplace 1 ⟨"Citizen", 128, false, true, ""⟩ :=
  (loadFromXml_appends_valid_entry (exampleEnv true [128]) citizenNode PLAYERSEX_MALE
    "1" "128" "Citizen" (by decide) (by decide) (by decide) (by decide) (by decide) (by decide)
    (by decide) (by decide) (by decide) (by decide) (Or.inr (by decide))).1

/-! ## The loader: the range check on `type` -/

/-- C5, at the failing input: the `type` value 256 is above `PLAYERSEX_LAST`, yet the
entry is not skipped; its record is appended to the female collection, because
the range check sees the value reduced to 8 bits. -/
theorem loadFromXml_type_256_appended :
    type256Node.attribute "type" = some "256" ∧
    decimalUint "256" = 256 ∧
    PLAYERSEX_LAST.toNat < 256 ∧
    loadFromXml (exampleEnv false []) (some [type256Node]) Outfits.empty
      = (true, ⟨[⟨"Citizen", 128, false, true, ""⟩], []⟩) := by
  decide

/-! ## The loader: disabled entries -/

/-- C11: an entry whose `enabled` attribute is set and reads as false never appears
in the collections: its iteration ends in `continue` (nothing appended, nothing
validated, no abort), and loading any file that contains it gives the same
return value and the same registry as loading the file without it. -/
theorem loadFromXml_ignores_disabled (env : Env) (n : xml_node) (v : String)
    (hattr : n.attribute "enabled" = some v) (hoff : env.toBool v = false) :
    loadFromXml.body env n = Step.skip ∧
    ∀ (pre post : List xml_node) (r : Outfits),
      loadFromXml env (some (pre ++ n :: post)) r
        = loadFromXml env (some (pre ++ post)) r := by
  have hfail : passesChecks env n = false := by
    simp [passesChecks, entryEnabled, hattr, hoff]
  have hb := body_skip_of_fails env n hfail
  exact ⟨hb, fun pre post r => loop_skip_mid env pre post n r hb⟩

/-- C11, evaluated: with the flag on and 999 unregistered, the disabled entry with
looktype 999 between two registered entries leaves the load as if it were not in
the file. -/
theorem loadFromXml_ignores_disabled_witness :
    loadFromXml (exampleEnv true [128, 136])
        (some ([citizenNode] ++ disabledNode :: [queenNode])) Outfits.empty
      = loadFromXml (exampleEnv true [128, 136]) (some ([citizenNode] ++ [queenNode]))
        Outfits.empty :=
  (loadFromXml_ignores_disabled (exampleEnv true [128, 136]) disabledNode "false"
    (by decide) (by decide)).2 [citizenNode] [queenNode] Outfits.empty

/-! ## The loader: optional fields of a record -/

/-- C12: the record appended for an accepted entry takes its optional fields from
the entry: `unlocked` is true when the attribute is absent, `premium` is false
when absent, `from` is the empty string when absent, and each carries the value
read from the attribute when it is present. -/
theorem loadFromXml_optional_fields (env : Env) (n : xml_node) (t : Nat) (o : Outfit)
    (hacc : loadFromXml.body env n = Step.emplace t o) :
    (n.attribute "unlocked" = none → o.unlocked = true) ∧
    (∀ v, n.attribute "unlocked" = some v → o.unlocked = env.toBool v) ∧
    (n.attribute "premium" = none → o.premium = false) ∧
    (∀ v, n.attribute "premium" = some v → o.premium = env.toBool v) ∧
    (n.attribute "from" = none → o.«from» = "") ∧
    (∀ v, n.attribute "from" = some v → o.«from» = v) := by
  rw [body_eq] at hacc
  split_ifs at hacc
  have ho : o = buildOutfit env n := by
    injection hacc with _ h2
    exact h2.symm
  subst ho
  refine ⟨fun h => ?_, fun v h => ?_, fun h => ?_, fun v h => ?_, fun h => ?_, fun v h => ?_⟩ <;>
    simp [buildOutfit, xml_attribute.as_bool, xml_attribute.as_string, h]

/-- C12, evaluated: the Queen entry (`unlocked="false"`, no `premium`, no `from`) is
accepted, and its record has premium false, an empty `from` and the value read
from `unlocked`. -/
theorem loadFromXml_optional_fields_witness :
    loadFromXml.body (exampleEnv false []) queenNode
      = Step.emplace 0 ⟨"Queen", 136, false, false, ""⟩ ∧
    (⟨"Queen", 136, false, false, ""⟩ : Outfit).premium = false ∧
    (⟨"Queen", 136, false, false, ""⟩ : Outfit).«from» = "" ∧
    (⟨"Queen", 136, false, false, ""⟩ : Outfit).unlocked = firstCharBool "false" :=
  have h := loadFromXml_optional_fields (exampleEnv false []) queenNode 0
    ⟨"Queen", 136, false, false, ""⟩ (by decide)
  ⟨by decide, h.2.2.1 (by decide), h.2.2.2.2.1 (by decide), h.2.1 "false" (by decide)⟩

/-! ## Opposite-sex lookup: large collections and the way back -/

theorem opposite_loop_cycles (own opp : List Outfit) (X : Nat) (hlen : 65536 ≤ own.length)
    (hne : ∀ o ∈ own, o.lookType ≠ X) :
    ∀ (fuel i : Nat), i < 65536 →
      getOpositeSexOutfitByLookType.loop own opp X fuel i = none := by
  intro fuel
  induction fuel with
  | zero => intro i _; rfl
  | succ n ih =>
    intro i hi
    have h : i < own.length := by omega
    have hne_i : ¬ own[i].lookType = X := hne _ (List.getElem_mem h)
    simp only [getOpositeSexOutfitByLookType.loop, h, dite_true, List.get_eq_getElem, hne_i,
      if_false]
    exact ih _ (Nat.mod_lt _ (by norm_num))

theorem opposite_loop_some_inv (own opp : List Outfit) (X : Nat) (hlen : own.length < 65536)
    (o : Outfit) :
    ∀ (fuel i : Nat), getOpositeSexOutfitByLookType.loop own opp X fuel i = some (some o) →
      ∃ (k : Nat) (hk : k < own.length) (h2 : k < opp.length), i ≤ k ∧
        (own.get ⟨k, hk⟩).lookType = X ∧
        (∀ (j : Nat) (hj : j < own.length), i ≤ j → j < k → (own.get ⟨j, hj⟩).lookType ≠ X) ∧
        o = opp.get ⟨k, h2⟩ := by
  intro fuel
  induction fuel with
  | zero => intro i h; simp [getOpositeSexOutfitByLookType.loop] at h
  | succ n ih =>
    intro i h
    by_cases hi : i < own.length
    · by_cases hX : own[i].lookType = X
      · by_cases h2 : i < opp.length
        · simp only [getOpositeSexOutfitByLookType.loop, hi, dite_true, List.get_eq_getElem, hX,
            if_true, gt_iff_lt, h2, Option.some.injEq] at h
          exact ⟨i, hi, h2, le_refl i, hX, fun j _ hij hji => by omega, h.symm⟩
        · simp [getOpositeSexOutfitByLookType.loop, hi, hX, h2] at h
      · have hmod : (i + 1) % 65536 = i + 1 := Nat.mod_eq_of_lt (by omega)
        simp only [getOpositeSexOutfitByLookType.loop, hi, dite_true, List.get_eq_getElem, hX,
          if_false, hmod] at h
        obtain ⟨k, hk, h2, hik, hkX, hfirst, ho⟩ := ih (i + 1) h
        refine ⟨k, hk, h2, by omega, hkX, fun j hj hij hjk => ?_, ho⟩
        rcases Nat.eq_or_lt_of_le hij with heq | hlt
        · subst heq; exact hX
        · exact hfirst j hj (by omega) hjk
    · simp [getOpositeSexOutfitByLookType.loop, hi] at h

theorem oppositeSex_oppositeSex (s : PlayerSex_t) : oppositeSex (oppositeSex s) = s := by
  cases s <;> rfl

/-- C13, at the failing input: in a registry whose female collection holds 65536
records, none of looktype 137, the female lookup of 137 does not return: the
16-bit counter wraps to 0 before it can reach the size, and the loop is still
running whatever the fuel. -/
theorem getOpositeSexOutfitByLookType_crowded_never_returns :
    (crowdedRegistry.outfits PLAYERSEX_FEMALE).length = 65536 ∧
    (∀ o ∈ crowdedRegistry.outfits PLAYERSEX_FEMALE, o.lookType ≠ 137) ∧
    ∀ fuel, getOpositeSexOutfitByLookType fuel crowdedRegistry PLAYERSEX_FEMALE 137 = none := by
  have hlen : (crowdedRegistry.outfits PLAYERSEX_FEMALE).length = 65536 :=
    List.length_replicate 65536 _
  have hne : ∀ o ∈ crowdedRegistry.outfits PLAYERSEX_FEMALE, o.lookType ≠ 137 := by
    intro o ho
    have : o = ⟨"Citizen", 136, false, true, ""⟩ := by
      simp only [crowdedRegistry, Outfits.outfits] at ho
      exact List.eq_of_mem_replicate ho
    rw [this]
    decide
  refine ⟨hlen, hne, fun fuel => ?_⟩
  exact opposite_loop_cycles _ _ 137 (by omega) hne fuel 0 (by norm_num)

/-- C15: in a registry with fewer than 65536 records per collection, if the lookup
of `X` from `s` returns a record `o` and the lookTypes of the opposite
collection are pairwise distinct, then the lookup of `o.lookType` from the
opposite sex returns (with any fuel above the size of the opposite collection)
the first record of `s`'s collection whose lookType is `X`. -/
theorem getOpositeSexOutfitByLookType_round_trip (r : Outfits) (s : PlayerSex_t) (X : Nat)
    (o : Outfit) (hf : r.female.length < 65536) (hm : r.male.length < 65536) (fuel : Nat)
    (hret : getOpositeSexOutfitByLookType fuel r s X = some (some o))
    (hdistinct : ((r.outfits (oppositeSex s)).map Outfit.lookType).Nodup) :
    ∃ (k : Nat) (hk : k < (r.outfits s).length),
      ((r.outfits s).get ⟨k, hk⟩).lookType = X ∧
      (∀ (j : Nat) (hj : j < (r.outfits s).length), j < k →
        ((r.outfits s).get ⟨j, hj⟩).lookType ≠ X) ∧
      ∀ fuel2, (r.outfits (oppositeSex s)).length < fuel2 →
        getOpositeSexOutfitByLookType fuel2 r (oppositeSex s) o.lookType
          = some (some ((r.outfits s).get ⟨k, hk⟩)) := by
  have hlen : ∀ g, (r.outfits g).length < 65536 := by
    intro g; cases g <;> simpa [Outfits.outfits]
  simp only [getOpositeSexOutfitByLookType, searchSex_eq] at hret
  obtain ⟨k, hk, h2, _, hkX, hfirst, ho⟩ :=
    opposite_loop_some_inv (r.outfits s) (r.outfits (oppositeSex s)) X (hlen s) o fuel 0 hret
  refine ⟨k, hk, hkX, fun j hj hjk => hfirst j hj (Nat.zero_le j) hjk, fun fuel2 hfuel2 => ?_⟩
  have hback : ((r.outfits (oppositeSex s)).get ⟨k, h2⟩).lookType = o.lookType := by rw [ho]
  have hothers : ∀ (j : Nat) (hj : j < (r.outfits (oppositeSex s)).length), 0 ≤ j → j < k →
      ((r.outfits (oppositeSex s)).get ⟨j, hj⟩).lookType ≠ o.lookType := by
    intro j hj _ hjk heq
    have hj2 : j < ((r.outfits (oppositeSex s)).map Outfit.lookType).length := by simpa using hj
    have hk2 : k < ((r.outfits (oppositeSex s)).map Outfit.lookType).length := by simpa using h2
    have hsame : ((r.outfits (oppositeSex s)).map Outfit.lookType)[j]
        = ((r.outfits (oppositeSex s)).map Outfit.lookType)[k] := by
      simp only [List.getElem_map]
      exact heq.trans hback.symm
    have := (hdistinct.getElem_inj_iff).1 hsame
    omega
  have hrun := opposite_loop_found (r.outfits (oppositeSex s)) (r.outfits s) o.lookType k h2
    (by have := hlen (oppositeSex s); omega) hback fuel2 0 (Nat.zero_le k) (by omega) hothers
  simp only [getOpositeSexOutfitByLookType, searchSex_eq, oppositeSex_oppositeSex, hrun, hk,
    dite_true]

/-- C15, evaluated: in the example registry the female looktype 137 maps to the male
Hunter record (looktype 129), and the male lookup of 129 returns the female
Hunter record, the first female record of looktype 137. -/
theorem getOpositeSexOutfitByLookType_round_trip_witness :
    getOpositeSexOutfitByLookType 4 exampleRegistry PLAYERSEX_FEMALE 137
      = some (some ⟨"Hunter", 129, false, true, ""⟩) ∧
    getOpositeSexOutfitByLookType 3 exampleRegistry PLAYERSEX_MALE 129
      = some (some ⟨"Hunter", 137, false, true, ""⟩) := by
  obtain ⟨k, hk, hX, _, hcall⟩ := getOpositeSexOutfitByLookType_round_trip exampleRegistry
    PLAYERSEX_FEMALE 137 ⟨"Hunter", 129, false, true, ""⟩ (by decide) (by decide) 4 (by decide)
    (by decide)
  have hk3 : k < 3 := hk
  have hk1 : k = 1 := by
    interval_cases k
    · simp [exampleRegistry, Outfits.outfits] at hX
    · rfl
    · simp [exampleRegistry, Outfits.outfits] at hX
  subst hk1
  exact ⟨by decide, hcall 3 (by decide)⟩

/-! ## The loader: what every loaded record satisfies -/

theorem body_emplace_wellformed (env : Env) (n : xml_node) (t : Nat) (o : Outfit)
    (h : loadFromXml.body env n = Step.emplace t o) :
    o.lookType = 0 ∨
      (o.name ≠ "" ∧
        (env.WARN_UNSAFE_SCRIPTS = true → env.isLookTypeRegistered o.lookType = true)) := by
  rw [body_eq] at h
  split_ifs at h with hp hs
  have ho : o = buildOutfit env n := by
    injection h with _ h2
    exact h2.symm
  subst ho
  have hpass : passesChecks env n = true := by simpa using hp
  simp only [passesChecks, Bool.and_eq_true] at hpass
  have hlook := hpass.2
  cases hattr : n.attribute "looktype" with
  | none => left; simp [buildOutfit, entryLookType, hattr]
  | some v =>
    right
    cases hname : n.attribute "name" with
    | none => simp [lookNameChecksPass, hattr, hname] at hlook
    | some nm =>
      simp only [lookNameChecksPass, hattr, hname, Bool.and_eq_true, decide_eq_true_eq] at hlook
      obtain ⟨⟨⟨_, hnz⟩, _⟩, hnm⟩ := hlook
      refine ⟨by simpa [buildOutfit, hname, xml_attribute.as_string] using hnm, fun hw => ?_⟩
      cases hreg : env.isLookTypeRegistered (entryLookType env n) with
      | true => simpa [buildOutfit] using hreg
      | false =>
        exact absurd ⟨hw, by simp [unregisteredLookType, hnz, hreg]⟩ hs

theorem loop_preserves (env : Env) (P : Outfit → Prop)
    (hP : ∀ n t o, loadFromXml.body env n = Step.emplace t o → P o) :
    ∀ (l : List xml_node) (r : Outfits), (∀ g, ∀ o ∈ r.outfits g, P o) →
      ∀ g, ∀ o ∈ (loadFromXml.loop env l r).2.outfits g, P o := by
  intro l
  induction l with
  | nil => intro r hr; simpa [loadFromXml.loop, Outfits.shrink_to_fit] using hr
  | cons n t ih =>
    intro r hr
    simp only [loadFromXml.loop]
    cases hb : loadFromXml.body env n with
    | skip => exact ih r hr
    | abort => exact hr
    | emplace ty o =>
      refine ih _ (fun g x hx => ?_)
      rw [emplace_back_outfits] at hx
      split_ifs at hx
      · rcases List.mem_append.1 hx with h | h
        · exact hr g x h
        · rw [List.mem_singleton.1 h]; exact hP n ty o hb
      · exact hr g x hx

/-- C14: after `loadFromXml` has run on a parsed file from an empty registry, with
either outcome, every record of every gender collection has lookType 0, or has
a non-empty name and, when the flag is enabled, a registered lookType. -/
theorem loadFromXml_records_wellformed (env : Env) (children : List xml_node)
    (g : PlayerSex_t) (o : Outfit)
    (hmem : o ∈ (loadFromXml env (some children) Outfits.empty).2.outfits g) :
    o.lookType = 0 ∨
      (o.name ≠ "" ∧
        (env.WARN_UNSAFE_SCRIPTS = true → env.isLookTypeRegistered o.lookType = true)) := by
  refine loop_preserves env _ (body_emplace_wellformed env) children Outfits.empty ?_ g o hmem
  intro g x hx
  cases g <;> simp [Outfits.empty, Outfits.outfits] at hx

/-- C14, evaluated: in the aborted load of Citizen(128), Hunter(999), Queen(136) with
the flag on and 128, 136 registered, the Citizen record is in the male
collection; it has a non-empty name and a registered lookType. -/
theorem loadFromXml_records_wellformed_witness :
    (⟨"Citizen", 128, false, true, ""⟩ : Outfit) ∈
      (loadFromXml (exampleEnv true [128, 136]) (some [citizenNode, hunterNode, queenNode])
        Outfits.empty).2.outfits PLAYERSEX_MALE ∧
    ((⟨"Citizen", 128, false, true, ""⟩ : Outfit).lookType = 0 ∨
      ((⟨"Citizen", 128, false, true, ""⟩ : Outfit).name ≠ "" ∧
        ((exampleEnv true [128, 136]).WARN_UNSAFE_SCRIPTS = true →
          (exampleEnv true [128, 136]).isLookTypeRegistered
            (⟨"Citizen", 128, false, true, ""⟩ : Outfit).lookType = true))) :=
  ⟨by decide,
   loadFromXml_records_wellformed (exampleEnv true [128, 136])
    [citizenNode, hunterNode, queenNode] PLAYERSEX_MALE ⟨"Citizen", 128, false, true, ""⟩
    (by decide)⟩

/-! ## The loader: loading again -/

theorem loop_extends (env : Env) :
    ∀ (l : List xml_node) (r : Outfits) (g : PlayerSex_t),
      ∃ added, (loadFromXml.loop env l r).2.outfits g = r.outfits g ++ added := by
  intro l
  induction l with
  | nil => intro r g; exact ⟨[], by simp [loadFromXml.loop, Outfits.shrink_to_fit]⟩
  | cons n t ih =>
    intro r g
    simp only [loadFromXml.loop]
    cases loadFromXml.body env n with
    | skip => exact ih r g
    | abort => exact ⟨[], by simp⟩
    | emplace ty o =>
      obtain ⟨added, h⟩ := ih (r.emplace_back ty o) g
      rw [h, emplace_back_outfits]
      split_ifs
      · exact ⟨[o] ++ added, by simp⟩
      · exact ⟨added, rfl⟩

theorem loop_success_records (env : Env) (l : List xml_node) (r : Outfits)
    (h : (loadFromXml.loop env l r).1 = true) :
    ∀ (r0 : Outfits), (loadFromXml.loop env l r0).1 = true ∧
      ∀ g, (loadFromXml.loop env l r0).2.outfits g = r0.outfits g ++ recordsFor env g l := by
  have hna : ∀ n ∈ l, loadFromXml.body env n ≠ Step.abort := by
    intro n hn hb
    have := (loop_false_iff env l r).2 ⟨n, hn, hb⟩
    rw [h] at this
    cases this
  exact fun r0 => loop_no_abort env l r0 hna

/-- C16, counterexample: with the flag off, loading the file with the single male
Citizen entry twice, first into the empty registry, leaves the female collection
empty after both loads, so it is equal to the first load's collection; and
loading it twice into the example registry leaves a male collection that is not
the first load's male collection concatenated with itself. -/
theorem loadFromXml_second_load_not_doubling :
    (loadFromXml (exampleEnv false []) (some [citizenNode]) Outfits.empty
        = (true, ⟨[], [⟨"Citizen", 128, false, true, ""⟩]⟩) ∧
      (loadFromXml (exampleEnv false []) (some [citizenNode])
          ⟨[], [⟨"Citizen", 128, false, true, ""⟩]⟩).1 = true ∧
      (loadFromXml (exampleEnv false []) (some [citizenNode])
          ⟨[], [⟨"Citizen", 128, false, true, ""⟩]⟩).2.outfits PLAYERSEX_FEMALE
        = (⟨[], [⟨"Citizen", 128, false, true, ""⟩]⟩ : Outfits).outfits PLAYERSEX_FEMALE) ∧
    ((loadFromXml (exampleEnv false []) (some [citizenNode]) exampleRegistry).1 = true ∧
      (loadFromXml (exampleEnv false []) (some [citizenNode])
          (loadFromXml (exampleEnv false []) (some [citizenNode]) exampleRegistry).2).1 = true ∧
      (loadFromXml (exampleEnv false []) (some [citizenNode])
          (loadFromXml (exampleEnv false []) (some [citizenNode])
            exampleRegistry).2).2.outfits PLAYERSEX_MALE
        ≠ (loadFromXml (exampleEnv false []) (some [citizenNode])
              exampleRegistry).2.outfits PLAYERSEX_MALE ++
          (loadFromXml (exampleEnv false []) (some [citizenNode])
              exampleRegistry).2.outfits PLAYERSEX_MALE) := by
  decide

/-- C16, amended: `loadFromXml` only appends: for every starting registry and every
file (parsed or not, load successful or aborted) each gender collection after
the call is its prior content followed by what the call added; and after a
successful load into the empty registry, a second load of the same file into
the resulting registry succeeds and leaves each collection equal to the first
load's collection concatenated with itself, which differs from it whenever that
collection is non-empty. -/
theorem loadFromXml_only_appends (env : Env) :
    (∀ (doc : Option (List xml_node)) (r : Outfits) (g : PlayerSex_t),
      ∃ added, (loadFromXml env doc r).2.outfits g = r.outfits g ++ added) ∧
    (∀ (children : List xml_node) (r1 : Outfits),
      loadFromXml env (some children) Outfits.empty = (true, r1) →
      (loadFromXml env (some children) r1).1 = true ∧
      ∀ g, (loadFromXml env (some children) r1).2.outfits g
            = r1.outfits g ++ r1.outfits g ∧
          (r1.outfits g ≠ [] →
            (loadFromXml env (some children) r1).2.outfits g ≠ r1.outfits g)) := by
  refine ⟨fun doc r g => ?_, fun children r1 h1 => ?_⟩
  · cases doc with
    | none => exact ⟨[], by simp [loadFromXml]⟩
    | some children => exact loop_extends env children r g
  · have h1loop : loadFromXml.loop env children Outfits.empty = (true, r1) := h1
    have hok : (loadFromXml.loop env children Outfits.empty).1 = true := by rw [h1loop]
    have hfirst := (loop_success_records env children Outfits.empty hok Outfits.empty).2
    have hsecond := loop_success_records env children Outfits.empty hok r1
    have hr1 : ∀ g, r1.outfits g = recordsFor env g children := by
      intro g
      have := hfirst g
      rw [h1loop] at this
      cases g <;> simpa [Outfits.empty, Outfits.outfits] using this
    refine ⟨hsecond.1, fun g => ?_⟩
    have hg : (loadFromXml env (some children) r1).2.outfits g
        = r1.outfits g ++ r1.outfits g := by
      show (loadFromXml.loop env children r1).2.outfits g = _
      rw [hsecond.2 g, ← hr1 g]
    refine ⟨hg, fun hne heq => ?_⟩
    rw [hg] at heq
    have hlen := congrArg List.length heq
    rw [List.length_append] at hlen
    have : (r1.outfits g).length = 0 := by omega
    exact hne (List.length_eq_zero.1 this)

/-- C16 amended, evaluated: with the flag off, the file Citizen(male), Queen(female)
loaded a second time into the registry of its first load doubles the male
collection. -/
theorem loadFromXml_only_appends_witness :
    (loadFromXml (exampleEnv false []) (some [citizenNode, queenNode])
        ⟨[⟨"Queen", 136, false, false, ""⟩], [⟨"Citizen", 128, false, true, ""⟩]⟩).2.outfits
          PLAYERSEX_MALE
      = [⟨"Citizen", 128, false, true, ""⟩, ⟨"Citizen", 128, false, true, ""⟩] :=
  (((loadFromXml_only_appends (exampleEnv false [])).2 [citizenNode, queenNode]
      ⟨[⟨"Queen", 136, false, false, ""⟩], [⟨"Citizen", 128, false, true, ""⟩]⟩
      (by decide)).2 PLAYERSEX_MALE).1.trans (by decide)

end OutfitRegistry
